import Mathlib

/-!
Verification of the jira-mcp thin client (src/src/jira_client.py and
src/server.py) against its specification.

The embedding models Python values flowing through the client as a `Json`
type, Python exceptions as an error type `PyErr` (distinguishing the
library's `JiraClientError` from every other exception), and the network
boundary as a `Transport` oracle whose responses are arbitrary.  Each
client method runs in the monad `M`, which threads the list of network
calls issued so far (so "no network request was made" is the statement
that the call log is empty) and propagates uncaught exceptions.
-/

/-- A Python/JSON value as the client sees it: `null`, booleans, integers,
strings, lists and dicts (association lists, first key wins as in a dict). -/
inductive Json where
  | null
  | bool (b : Bool)
  | num (n : Int)
  | str (s : String)
  | arr (elems : List Json)
  | obj (entries : List (String × Json))

/-- First binding of a key in a dict's entry list. -/
def Json.lookupKey : List (String × Json) → String → Option Json
  | [], _ => none
  | (k, v) :: rest, key => if k = key then some v else Json.lookupKey rest key

/-- Field access on an object, `none` on non-objects or missing keys
(used only to state theorems about result records). -/
def Json.lookup : Json → String → Option Json
  | .obj entries, key => Json.lookupKey entries key
  | _, _ => none

/-- Python truthiness of a value (`if x:`). -/
def Json.truthy : Json → Bool
  | .null => false
  | .bool b => b
  | .num n => n != 0
  | .str s => s != ""
  | .arr l => !l.isEmpty
  | .obj l => !l.isEmpty

/-- A Python exception: the library's own `JiraClientError`, or any other
exception (`AttributeError`, `TypeError`, transport failures, ...).  Both
carry the message `str(e)` yields. -/
inductive PyErr where
  | jiraClientError (msg : String)
  | otherError (msg : String)

/-- `str(e)` on an exception: its message. -/
def PyErr.pyMsg : PyErr → String
  | .jiraClientError m => m
  | .otherError m => m

/-- `d.get(key, default)`: the dict method.  On a non-dict it raises
`AttributeError` as Python does. -/
def Json.get : Json → String → Json → Except PyErr Json
  | .obj entries, key, dflt => .ok ((Json.lookupKey entries key).getD dflt)
  | _, _, _ => .error (.otherError "AttributeError: object has no attribute get")

/-- Iterating a value (`for x in v`): lists yield their elements, strings
their characters, dicts their keys; other values raise `TypeError`. -/
def Json.pyIter : Json → Except PyErr (List Json)
  | .arr l => .ok l
  | .str s => .ok (s.toList.map (fun c => Json.str (String.singleton c)))
  | .obj l => .ok (l.map (fun kv => Json.str kv.1))
  | _ => .error (.otherError "TypeError: object is not iterable")

/-- Indexing `v[0]` as Python does: first list element, first character of a
string; `IndexError` when empty, `TypeError` on non-sequences. -/
def Json.index0 : Json → Except PyErr Json
  | .arr (x :: _) => .ok x
  | .arr [] => .error (.otherError "IndexError: list index out of range")
  | .str s =>
      if s = "" then .error (.otherError "IndexError: string index out of range")
      else .ok (.str (String.singleton s.front))
  | _ => .error (.otherError "TypeError: object is not subscriptable")

/-- Python `repr` of a value, as `str` uses it inside containers. -/
def Json.pyRepr : Json → String
  | .null => "None"
  | .bool true => "True"
  | .bool false => "False"
  | .num n => toString n
  | .str s => "'" ++ s ++ "'"
  | .arr l => "[" ++ String.intercalate ", " (l.attach.map (fun x => Json.pyRepr x.1)) ++ "]"
  | .obj l =>
      "\x7b" ++
        String.intercalate ", "
          (l.attach.map (fun x => "'" ++ x.1.1 ++ "': " ++ Json.pyRepr x.1.2)) ++
      "\x7d"
decreasing_by
  · have h := List.sizeOf_lt_of_mem x.2
    simp at h ⊢
    omega
  · have h := List.sizeOf_lt_of_mem x.2
    obtain ⟨⟨k, v⟩, hv⟩ := x
    simp at h ⊢
    omega

/-- Python `str(v)`: the string itself for strings, `repr`-style otherwise
(f-string interpolation and `str(transition_id)` use this). -/
def Json.pyStr : Json → String
  | .str s => s
  | j => j.pyRepr

/-- One network request issued through the `atlassian.Jira` instance, with
its arguments (responses are not part of the record). -/
inductive CallRec where
  | myself
  | post (path : String) (body : Json)
  | getRequest (path : String)
  | projectsList
  | issueCreate (fields : Json)
  | issueAddComment (issue_id : String) (comment : String)
  | transitionsGet (issue_id : String)
  | setIssueStatus (issue_id : String) (transition_id : Json)

/-- The computation monad of the client: threads the list of network calls
issued so far and propagates Python exceptions that are not caught. -/
def M (α : Type) : Type := List CallRec → Except PyErr α × List CallRec

def M.pure (a : α) : M α := fun s => (.ok a, s)

def M.bind (m : M α) (f : α → M β) : M β := fun s =>
  match m s with
  | (.ok a, s') => f a s'
  | (.error e, s') => (.error e, s')

instance : Monad M where
  pure := M.pure
  bind := M.bind

/-- `raise e`. -/
def M.raise (e : PyErr) : M α := fun s => (.error e, s)

/-- A pure (non-network) step that may raise. -/
def M.ofExcept (r : Except PyErr α) : M α := fun s => (r, s)

/-- A network call: records the request and yields the oracle's response. -/
def M.netCall (c : CallRec) (resp : Except PyErr α) : M α := fun s => (resp, s ++ [c])

/-- Run a computation on an empty call log: (outcome, network calls issued). -/
def runM (m : M α) : Except PyErr α × List CallRec := m []

/-- The network oracle: for every request shape, an arbitrary response or an
arbitrary exception.  `url` and `email` are the fields the client instance
keeps from its construction. -/
structure Transport where
  url : String
  email : String
  myselfResp : Except PyErr Json
  postResp : String → Json → Except PyErr Json
  getResp : String → Except PyErr Json
  projectsResp : Except PyErr (List (String × String))
  issueCreateResp : Json → Except PyErr Json
  addCommentResp : String → String → Except PyErr Json
  transitionsResp : String → Except PyErr Json
  setStatusResp : String → Json → Except PyErr Json

/-- `self.jira.myself()`. -/
def Transport.myself (t : Transport) : M Json :=
  M.netCall .myself t.myselfResp

/-- `self.jira.post(path, data=body)`. -/
def Transport.post (t : Transport) (path : String) (body : Json) : M Json :=
  M.netCall (.post path body) (t.postResp path body)

/-- `self.jira.get(path)`. -/
def Transport.getRequest (t : Transport) (path : String) : M Json :=
  M.netCall (.getRequest path) (t.getResp path)

/-- `self.jira.projects()`: a list of project records, each with a `name`
and a `key` attribute (modelled as the pair name × key). -/
def Transport.projects (t : Transport) : M (List (String × String)) :=
  M.netCall .projectsList t.projectsResp

/-- `self.jira.issue_create(fields=...)`. -/
def Transport.issueCreate (t : Transport) (fields : Json) : M Json :=
  M.netCall (.issueCreate fields) (t.issueCreateResp fields)

/-- `self.jira.issue_add_comment(issue_id, comment)`. -/
def Transport.addComment (t : Transport) (issue_id comment : String) : M Json :=
  M.netCall (.issueAddComment issue_id comment) (t.addCommentResp issue_id comment)

/-- `self.jira.get_issue_transitions(issue_id)`. -/
def Transport.issueTransitions (t : Transport) (issue_id : String) : M Json :=
  M.netCall (.transitionsGet issue_id) (t.transitionsResp issue_id)

/-- `self.jira.set_issue_status_by_transition_id(issue_id, transition_id)`. -/
def Transport.setIssueStatus (t : Transport) (issue_id : String) (transition_id : Json) : M Json :=
  M.netCall (.setIssueStatus issue_id transition_id) (t.setStatusResp issue_id transition_id)

/-- `try: body except JiraClientError: raise except Exception as e:
raise JiraClientError(wrap(str(e)))` — the catch pattern of
`create_project`, `get_project_key_by_name`, `create_issue` and
`change_status`. -/
def pyTryWrapKeepDomain (body : M α) (wrap : String → String) : M α := fun s =>
  match body s with
  | (.ok a, s') => (.ok a, s')
  | (.error (.jiraClientError m), s') => (.error (.jiraClientError m), s')
  | (.error (.otherError m), s') => (.error (.jiraClientError (wrap m)), s')

/-- `try: body except Exception as e: raise JiraClientError(wrap(str(e)))` —
the catch pattern of `get_current_user_account_id`, `search_issues` and
`add_comment`, which re-wraps even a `JiraClientError` raised inside. -/
def pyTryWrapAll (body : M α) (wrap : String → String) : M α := fun s =>
  match body s with
  | (.ok a, s') => (.ok a, s')
  | (.error e, s') => (.error (.jiraClientError (wrap e.pyMsg)), s')

/-- `try: body except Exception: return dflt` — the catch pattern of
`_get_board_for_project`. -/
def pyTryDefault (body : M α) (dflt : α) : M α := fun s =>
  match body s with
  | (.ok a, s') => (.ok a, s')
  | (.error _, s') => (.ok dflt, s')

/-- The façade pattern of four of the five tools in server.py:
`except JiraClientError as e: return {"error": str(e)}` — any other
exception would propagate. -/
def pyTryFacade (body : M Json) : M Json := fun s =>
  match body s with
  | (.ok d, s') => (.ok d, s')
  | (.error (.jiraClientError m), s') => (.ok (.obj [("error", .str m)]), s')
  | (.error (.otherError m), s') => (.error (.otherError m), s')

/-- The façade pattern of the change_status tool, which adds
`except Exception as e: return {"error": str(e)}` after the domain catch. -/
def pyTryFacadeAll (body : M Json) : M Json := fun s =>
  match body s with
  | (.ok d, s') => (.ok d, s')
  | (.error e, s') => (.ok (.obj [("error", .str e.pyMsg)]), s')

/-- Python `str.lower()` on one character, in the ASCII range the client's
inputs live in. -/
def pyCharLower (c : Char) : Char :=
  if 'A' ≤ c && c ≤ 'Z' then Char.ofNat (c.toNat + 32) else c

/-- Python `str.lower()` (ASCII model). -/
def pyLower (s : String) : String := ⟨s.toList.map pyCharLower⟩

/-- Python `str.isupper()`: at least one cased character and every cased
character uppercase (ASCII letters are the cased characters in scope here).
Note a digit is not cased, so "AB1".isupper() is True. -/
def pyIsupper (s : String) : Bool :=
  s.toList.any (fun c => c.isAlpha) && s.toList.all (fun c => !c.isAlpha || c.isUpper)

namespace JiraClient

/-- jira_client.py lines 38-51: fetch the authenticated user's account id;
any failure (including a missing/empty accountId) is re-raised as
JiraClientError with the wrapping prefix. -/
def get_current_user_account_id (t : Transport) : M Json :=
  pyTryWrapAll
    (do
      let myselfJ ← t.myself
      let account_id ← M.ofExcept (myselfJ.get "accountId" .null)
      if !account_id.truthy then
        M.raise (.jiraClientError "Unable to retrieve account ID")
      else
        Pure.pure account_id)
    (fun m => "Failed to get current user account ID: " ++ m)

/-- jira_client.py lines 120-135: best-effort board lookup for a project;
returns the first board, or an empty dict when the list is empty or
anything raises. -/
def get_board_for_project (t : Transport) (project_key : String) : M Json :=
  pyTryDefault
    (do
      let response ← t.getRequest ("/rest/agile/1.0/board?projectKeyOrId=" ++ project_key)
      let boards ← M.ofExcept (response.get "values" (.arr []))
      if boards.truthy then
        M.ofExcept boards.index0
      else
        Pure.pure (Json.obj []))
    (.obj [])

/-- jira_client.py lines 76-83: map board_type to its project template,
or the JiraClientError listing the two valid options. -/
def boardTemplate (board_type : String) : Except PyErr String :=
  if pyLower board_type = "kanban" then
    .ok "com.pyxis.greenhopper.jira:gh-kanban-template"
  else if pyLower board_type = "scrum" then
    .ok "com.pyxis.greenhopper.jira:gh-scrum-template"
  else
    .error (.jiraClientError
      ("Invalid board_type '" ++ board_type ++ "'. Must be 'scrum' or 'kanban'"))

/-- jira_client.py lines 53-118: validate the key, fetch the account id,
map board_type to a template, create the project, then best-effort board
lookup, building the success record. -/
def create_project (t : Transport) (project_name project_key board_type : String) : M Json :=
  pyTryWrapKeepDomain
    (do
      if !(pyIsupper project_key) || !(decide (2 ≤ project_key.length) && decide (project_key.length ≤ 10)) then
        M.raise (.jiraClientError "Project key must be 2-10 uppercase letters (e.g., 'PROJ', 'TEST')")
      else do
        let account_id ← get_current_user_account_id t
        let template ← M.ofExcept (boardTemplate board_type)
        let payload : Json := .obj
          [("key", .str project_key),
           ("name", .str project_name),
           ("projectTypeKey", .str "software"),
           ("projectTemplateKey", .str template),
           ("leadAccountId", account_id),
           ("assigneeType", .str "UNASSIGNED")]
        let result ← t.post "/rest/api/3/project" payload
        let board_info ← get_board_for_project t project_key
        let resKey ← M.ofExcept (result.get "key" .null)
        let resId ← M.ofExcept (result.get "id" .null)
        let boardId ← M.ofExcept (board_info.get "id" .null)
        Pure.pure (Json.obj
          [("success", .bool true),
           ("project_key", resKey),
           ("project_id", resId),
           ("project_url", .str (t.url ++ "/browse/" ++ resKey.pyStr)),
           ("board_id", boardId),
           ("board_url", .str (t.url ++ "/jira/software/c/projects/" ++ project_key
                               ++ "/boards/" ++ boardId.pyStr)),
           ("board_type", .str board_type),
           ("message", .str ("Successfully created " ++ board_type ++ " board '"
                             ++ project_name ++ "' with project key " ++ project_key))]))
    (fun m => "Failed to create board: " ++ m)

/-- jira_client.py lines 137-152: list all projects and return the key of
the first whose name matches case-insensitively; JiraClientError when none
does. -/
def get_project_key_by_name (t : Transport) (project_name : String) : M String :=
  pyTryWrapKeepDomain
    (do
      let projects ← t.projects
      match projects.find? (fun p => pyLower p.1 == pyLower project_name) with
      | some p => Pure.pure p.2
      | none => M.raise (.jiraClientError ("Project '" ++ project_name ++ "' not found")))
    (fun m => "Failed to get project key: " ++ m)

/-- Python truthiness of an optional string (`if s:` where s is None or a
str). -/
def optStrTruthy : Option String → Bool
  | none => false
  | some s => s != ""

/-- Python truthiness of an optional list (`if l:`). -/
def optListTruthy : Option (List String) → Bool
  | none => false
  | some l => !l.isEmpty

/-- jira_client.py lines 180-197: the outbound field-set of create_issue —
the required fields, then assignee/priority/labels/duedate attached only
when the corresponding input is truthy. -/
def issueFields (project_key summary description issue_type : String)
    (assignee priority : Option String) (labels : Option (List String))
    (due_date : Option String) : Json :=
  .obj
    ([("project", Json.obj [("key", Json.str project_key)]),
      ("summary", Json.str summary),
      ("description", Json.str description),
      ("issuetype", Json.obj [("name", Json.str issue_type)])]
     ++ (if optStrTruthy assignee then
           [("assignee", Json.obj [("name", Json.str (assignee.getD ""))])] else [])
     ++ (if optStrTruthy priority then
           [("priority", Json.obj [("name", Json.str (priority.getD ""))])] else [])
     ++ (if optListTruthy labels then
           [("labels", Json.arr ((labels.getD []).map Json.str))] else [])
     ++ (if optStrTruthy due_date then
           [("duedate", Json.str (due_date.getD ""))] else []))

/-- jira_client.py lines 173-175: when no project_key is given but a
project_name is, resolve the name to a key over the network; otherwise the
given key stands. -/
def resolveProjectKey (t : Transport) (project_key project_name : Option String) :
    M (Option String) :=
  if !(optStrTruthy project_key) && optStrTruthy project_name then do
    let k ← get_project_key_by_name t (project_name.getD "")
    Pure.pure (some k)
  else
    Pure.pure project_key

/-- jira_client.py lines 154-214: create an issue; requires a summary,
resolves project_name to a key when no key is given, builds the field-set
and posts it. -/
def create_issue (t : Transport) (project_key project_name : Option String)
    (summary description issue_type : String)
    (assignee priority : Option String) (labels : Option (List String))
    (due_date : Option String) : M Json :=
  pyTryWrapKeepDomain
    (do
      if summary = "" then
        M.raise (.jiraClientError "Summary is required")
      else do
        let pk ← resolveProjectKey t project_key project_name
        if !(optStrTruthy pk) then
          M.raise (.jiraClientError "Either project_key or project_name must be provided")
        else do
          let fields := issueFields (pk.getD "") summary description issue_type
            assignee priority labels due_date
          let result ← t.issueCreate fields
          let issue_key ← M.ofExcept (result.get "key" .null)
          let issue_id ← M.ofExcept (result.get "id" .null)
          Pure.pure (Json.obj
            [("success", .bool true),
             ("issue_key", issue_key),
             ("issue_id", issue_id),
             ("issue_url", .str (t.url ++ "/browse/" ++ issue_key.pyStr)),
             ("message", .str ("Successfully created issue " ++ issue_key.pyStr))]))
    (fun m => "Failed to create issue: " ++ m)

/-- jira_client.py lines 236-248, one loop body: the simplified record for
one raw issue, with "Unassigned" substituted for a falsy assignee and
"None" the default priority name. -/
def simplifyIssue (url : String) (issue : Json) : Except PyErr Json := do
  let fields ← issue.get "fields" (.obj [])
  let assignee_data ← fields.get "assignee" .null
  let assignee_name ←
    if assignee_data.truthy then assignee_data.get "displayName" .null
    else Except.ok (Json.str "Unassigned")
  let keyJ ← issue.get "key" .null
  let summaryJ ← fields.get "summary" .null
  let statusObj ← fields.get "status" (.obj [])
  let statusName ← statusObj.get "name" .null
  let priorityObj ← fields.get "priority" (.obj [])
  let priorityName ← priorityObj.get "name" (.str "None")
  let typeObj ← fields.get "issuetype" (.obj [])
  let typeName ← typeObj.get "name" .null
  Except.ok (Json.obj
    [("key", keyJ),
     ("summary", summaryJ),
     ("status", statusName),
     ("assignee", assignee_name),
     ("priority", priorityName),
     ("issue_type", typeName),
     ("url", .str (url ++ "/browse/" ++ keyJ.pyStr))])

/-- jira_client.py lines 216-259: JQL search with a fixed field projection,
simplifying each returned issue; every failure (the validation error
included) is re-wrapped. -/
def search_issues (t : Transport) (query : String) (max_results : Int) : M Json :=
  pyTryWrapAll
    (do
      if query = "" then
        M.raise (.jiraClientError "Query cannot be empty")
      else do
        let payload : Json := .obj
          [("jql", .str query),
           ("maxResults", .num max_results),
           ("fields", .arr [.str "summary", .str "status", .str "assignee",
                            .str "issuetype", .str "priority", .str "created"])]
        let results ← t.post "/rest/api/3/search/jql" payload
        let issuesJ ← M.ofExcept (results.get "issues" (.arr []))
        let issues ← M.ofExcept issuesJ.pyIter
        let issue_count : Int := issues.length
        let simplified ← M.ofExcept (issues.mapM (simplifyIssue t.url))
        let total ← M.ofExcept (results.get "total" (.num issue_count))
        Pure.pure (Json.obj
          [("success", .bool true),
           ("total", total),
           ("returned", .num issue_count),
           ("issues", .arr simplified)]))
    (fun m => "Failed to search issues: " ++ m)

/-- jira_client.py lines 261-279: add a comment; validation and every other
failure re-wrapped the same way. -/
def add_comment (t : Transport) (issue_id comment : String) : M Json :=
  pyTryWrapAll
    (do
      if issue_id = "" || comment = "" then
        M.raise (.jiraClientError "Issue ID and comment are required")
      else do
        let result ← t.addComment issue_id comment
        let cid ← M.ofExcept (result.get "id" .null)
        Pure.pure (Json.obj
          [("success", .bool true),
           ("issue_id", .str issue_id),
           ("comment_id", cid),
           ("message", .str ("Successfully added comment to " ++ issue_id))]))
    (fun m => "Failed to add comment: " ++ m)

/-- jira_client.py lines 302-307: the transition-matching loop — the first
record whose name is a string case-insensitively equal to new_status, else
the initial `target = None`. -/
def findTransition (new_status : String) : List Json → Except PyErr Json
  | [] => .ok .null
  | t :: rest => do
      let nameJ ← t.get "name" (.str "")
      match nameJ with
      | .str n =>
          if pyLower n = pyLower new_status then .ok t
          else findTransition new_status rest
      | _ => findTransition new_status rest

/-- jira_client.py line 310: the names of the available transitions,
skipping records whose name is missing or not a string. -/
def availableNames : List Json → Except PyErr (List String)
  | [] => .ok []
  | t :: rest => do
      let nameJ ← t.get "name" .null
      let restNames ← availableNames rest
      match nameJ with
      | .str n => .ok (n :: restNames)
      | _ => .ok restNames

/-- jira_client.py lines 293-299: normalize the transitions response — a
dict contributes its "transitions" value (default the empty list), a bare
list stands as is, and any other shape is the protocol error. -/
def extractTransitions (transitions_response : Json) : Except PyErr Json :=
  match transitions_response with
  | .obj entries => .ok ((Json.lookupKey entries "transitions").getD (.arr []))
  | .arr l => .ok (.arr l)
  | _ => .error (.jiraClientError "Unexpected response format from get_issue_transitions")

/-- jira_client.py lines 281-330: resolve the requested status against the
freshly fetched transitions (accepting a dict-wrapped or bare list
response), apply the matched transition by id, and report. -/
def change_status (t : Transport) (issue_id new_status : String) : M Json :=
  pyTryWrapKeepDomain
    (do
      if issue_id = "" || new_status = "" then
        M.raise (.jiraClientError "Issue ID and new status are required")
      else do
        let transitions_response ← t.issueTransitions issue_id
        let transitionsVal ← M.ofExcept (extractTransitions transitions_response)
        let transitions ← M.ofExcept transitionsVal.pyIter
        let target ← M.ofExcept (findTransition new_status transitions)
        if !target.truthy then do
          let available ← M.ofExcept (availableNames transitions)
          M.raise (.jiraClientError
            ("Status '" ++ new_status ++ "' not available. Available transitions: "
             ++ String.intercalate ", " available))
        else do
          let transition_id ← M.ofExcept (target.get "id" .null)
          let _result ← t.setIssueStatus issue_id transition_id
          Pure.pure (Json.obj
            [("success", .bool true),
             ("issue_id", .str issue_id),
             ("new_status", .str new_status),
             ("transition_id", .str transition_id.pyStr),
             ("message", .str ("Successfully changed " ++ issue_id
                               ++ " status to " ++ new_status))]))
    (fun m => "Failed to change status: " ++ m)

end JiraClient

namespace server

/-- server.py lines 35-50: the create_project tool (its default board_type
is "kanban"); only JiraClientError is caught. -/
def create_project (t : Transport) (project_name project_key board_type : String) : M Json :=
  pyTryFacade (JiraClient.create_project t project_name project_key board_type)

/-- server.py lines 53-85: the create_issue tool; empty strings and an
empty labels list are converted to None before the client call; only
JiraClientError is caught. -/
def create_issue (t : Transport) (summary project_key project_name description
    issue_type assignee priority : String) (labels : List String) (due_date : String) : M Json :=
  pyTryFacade (JiraClient.create_issue t
    (if project_key != "" then some project_key else none)
    (if project_name != "" then some project_name else none)
    summary description issue_type
    (if assignee != "" then some assignee else none)
    (if priority != "" then some priority else none)
    (if !labels.isEmpty then some labels else none)
    (if due_date != "" then some due_date else none))

/-- server.py lines 87-106: the search_issues tool (the client's
max_results default of 10 applies); only JiraClientError is caught. -/
def search_issues (t : Transport) (query : String) : M Json :=
  pyTryFacade (JiraClient.search_issues t query 10)

/-- server.py lines 109-121: the add_comment tool; only JiraClientError is
caught. -/
def add_comment (t : Transport) (issue_id comment : String) : M Json :=
  pyTryFacade (JiraClient.add_comment t issue_id comment)

/-- server.py lines 123-144: the change_status tool; it additionally
catches every exception, not just JiraClientError. -/
def change_status (t : Transport) (issue_id new_status : String) : M Json :=
  pyTryFacadeAll (JiraClient.change_status t issue_id new_status)

end server

/-- The specification's project-key pattern `^[A-Z]{2,10}$`: 2-10
characters, each an uppercase ASCII letter. -/
def specKeyPattern (s : String) : Bool :=
  decide (2 ≤ s.length) && decide (s.length ≤ 10)
    && s.toList.all (fun c => decide ('A' ≤ c) && decide (c ≤ 'Z'))

/-- A transport oracle whose every response is a benign placeholder; the
theorems' witnesses override the fields a scenario needs. -/
def stubBase : Transport where
  url := "https://jira.example.com"
  email := "dev@example.com"
  myselfResp := .ok (.obj [("accountId", .str "acct-1")])
  postResp := fun _ _ => .ok (.obj [])
  getResp := fun _ => .ok (.obj [])
  projectsResp := .ok []
  issueCreateResp := fun _ => .ok (.obj [])
  addCommentResp := fun _ _ => .ok (.obj [])
  transitionsResp := fun _ => .ok (.arr [])
  setStatusResp := fun _ _ => .ok (.obj [])

/-- Evaluating a bind at a call log: the defining equation, stated for simp. -/
theorem M.bind_apply (m : M α) (f : α → M β) (s : List CallRec) :
    (m >>= f) s = match m s with
      | (.ok a, s') => f a s'
      | (.error e, s') => (.error e, s') := rfl

/-- Evaluating a pure value at a call log. -/
theorem M.pure_apply (a : α) (s : List CallRec) : (Pure.pure a : M α) s = (.ok a, s) := rfl

/-- The transition set of the specification's change_status scenario. -/
def demoTransitions : List Json :=
  [.obj [("id", .str "31"), ("name", .str "In Progress")],
   .obj [("id", .str "41"), ("name", .str "Done")]]

/-- C1: with available transitions [(31, "In Progress"), (41, "Done")],
change_status resolves "Done" to transition id "41" and succeeds, resolves
"done" identically (matching is case-insensitive), and fails on "Closed"
with a message containing both "In Progress" and "Done"; the success record
carries the transition id stringified. -/
theorem change_status_demo_scenario (t : Transport) (iid : String) (r1 : Json)
    (hiid : iid ≠ "")
    (htr : t.transitionsResp iid = .ok (.arr demoTransitions))
    (hset : t.setStatusResp iid (.str "41") = .ok r1) :
    (runM (JiraClient.change_status t iid "Done")).1 = .ok (.obj
      [("success", .bool true),
       ("issue_id", .str iid),
       ("new_status", .str "Done"),
       ("transition_id", .str "41"),
       ("message", .str ("Successfully changed " ++ iid ++ " status to Done"))])
    ∧ (runM (JiraClient.change_status t iid "done")).1 = .ok (.obj
      [("success", .bool true),
       ("issue_id", .str iid),
       ("new_status", .str "done"),
       ("transition_id", .str "41"),
       ("message", .str ("Successfully changed " ++ iid ++ " status to done"))])
    ∧ (∃ msg, (runM (JiraClient.change_status t iid "Closed")).1
        = .error (.jiraClientError msg)
      ∧ (∃ a b, msg = a ++ "In Progress" ++ b)
      ∧ (∃ c d, msg = c ++ "Done" ++ d)) := by
  have hfD : JiraClient.findTransition "Done" demoTransitions
      = .ok (.obj [("id", .str "41"), ("name", .str "Done")]) := rfl
  have hfd : JiraClient.findTransition "done" demoTransitions
      = .ok (.obj [("id", .str "41"), ("name", .str "Done")]) := rfl
  have hfC : JiraClient.findTransition "Closed" demoTransitions = .ok .null := rfl
  have hav : JiraClient.availableNames demoTransitions = .ok ["In Progress", "Done"] := rfl
  refine ⟨?_, ?_, ?_⟩
  · unfold runM JiraClient.change_status pyTryWrapKeepDomain
    simp only [hiid, Transport.issueTransitions, htr, decide_False, decide_True,
      String.reduceEq, Bool.false_or, Bool.or_false, Bool.false_eq_true, if_neg, if_false]
    simp only [M.bind_apply, M.pure_apply, M.netCall, M.ofExcept, M.raise,
      Transport.setIssueStatus, JiraClient.extractTransitions, Json.pyIter, hfD, Json.truthy, Json.get, Json.lookupKey,
      Json.pyStr, List.isEmpty, Bool.not_false, Bool.not_true, Bool.false_eq_true,
      String.reduceEq, String.reduceAppend, reduceIte, Option.getD, hset, if_neg, if_false,
      List.nil_append, List.cons_append]
    simp [String.append_assoc]
  · unfold runM JiraClient.change_status pyTryWrapKeepDomain
    simp only [hiid, Transport.issueTransitions, htr, decide_False, decide_True,
      String.reduceEq, Bool.false_or, Bool.or_false, Bool.false_eq_true, if_neg, if_false]
    simp only [M.bind_apply, M.pure_apply, M.netCall, M.ofExcept, M.raise,
      Transport.setIssueStatus, JiraClient.extractTransitions, Json.pyIter, hfd, Json.truthy, Json.get, Json.lookupKey,
      Json.pyStr, List.isEmpty, Bool.not_false, Bool.not_true, Bool.false_eq_true,
      String.reduceEq, String.reduceAppend, reduceIte, Option.getD, hset, if_neg, if_false,
      List.nil_append, List.cons_append]
    simp [String.append_assoc]
  · refine ⟨"Status 'Closed' not available. Available transitions: In Progress, Done",
      ?_, ⟨"Status 'Closed' not available. Available transitions: ", ", Done", by decide⟩,
      ⟨"Status 'Closed' not available. Available transitions: In Progress, ", "", by decide⟩⟩
    unfold runM JiraClient.change_status pyTryWrapKeepDomain
    simp only [hiid, Transport.issueTransitions, htr, decide_False, decide_True,
      String.reduceEq, Bool.false_or, Bool.or_false, Bool.false_eq_true, if_neg, if_false]
    simp only [M.bind_apply, M.pure_apply, M.netCall, M.ofExcept, M.raise,
      Transport.issueTransitions, JiraClient.extractTransitions, Json.pyIter, hfC, hav, Json.truthy,
      String.reduceEq, String.reduceAppend, reduceIte,
      Bool.not_false, Bool.not_true, Bool.false_eq_true, if_neg, if_false,
      List.nil_append, List.cons_append]
    have hic : String.intercalate ", " ["In Progress", "Done"] = "In Progress, Done" := by
      simp only [String.intercalate]
      decide
    simp [hic, String.append_assoc]

/-- A transport whose transitions response is the demo scenario's list. -/
def demoTransport : Transport :=
  { stubBase with transitionsResp := fun _ => .ok (.arr demoTransitions) }

/-- Witness for C1: the scenario run on a concrete transport and issue id. -/
theorem change_status_demo_scenario_witness :
    (runM (JiraClient.change_status demoTransport "PROJ-1" "Done")).1 = .ok (.obj
      [("success", .bool true),
       ("issue_id", .str "PROJ-1"),
       ("new_status", .str "Done"),
       ("transition_id", .str "41"),
       ("message", .str ("Successfully changed " ++ "PROJ-1" ++ " status to Done"))])
    ∧ (runM (JiraClient.change_status demoTransport "PROJ-1" "done")).1 = .ok (.obj
      [("success", .bool true),
       ("issue_id", .str "PROJ-1"),
       ("new_status", .str "done"),
       ("transition_id", .str "41"),
       ("message", .str ("Successfully changed " ++ "PROJ-1" ++ " status to done"))])
    ∧ (∃ msg, (runM (JiraClient.change_status demoTransport "PROJ-1" "Closed")).1
        = .error (.jiraClientError msg)
      ∧ (∃ a b, msg = a ++ "In Progress" ++ b)
      ∧ (∃ c d, msg = c ++ "Done" ++ d)) :=
  change_status_demo_scenario demoTransport "PROJ-1" (.obj []) (by decide) rfl rfl

/-- Stepping lemma: a successful bind splits into a successful first step
and a successful continuation. -/
theorem M.bind_ok (m : M α) (f : α → M β) (s s' : List CallRec) (b : β)
    (h : (m >>= f) s = (.ok b, s')) :
    ∃ a s₁, m s = (.ok a, s₁) ∧ f a s₁ = (.ok b, s') := by
  rw [M.bind_apply] at h
  split at h
  next a s₁ heq => exact ⟨a, s₁, heq, h⟩
  next e s₁ heq => simp at h

/-- An error escaping the keep-domain try block is a JiraClientError. -/
theorem wrapKeepDomain_error (body : M α) (wrap : String → String) (s s' : List CallRec)
    (e : PyErr) (h : pyTryWrapKeepDomain body wrap s = (.error e, s')) :
    ∃ m, e = .jiraClientError m := by
  unfold pyTryWrapKeepDomain at h
  split at h
  · simp at h
  · rw [Prod.mk.injEq] at h
    obtain ⟨h1, h2⟩ := h
    injection h1 with h1
    exact ⟨_, h1.symm⟩
  · rw [Prod.mk.injEq] at h
    obtain ⟨h1, h2⟩ := h
    injection h1 with h1
    exact ⟨_, h1.symm⟩

/-- An error escaping the wrap-all try block is a JiraClientError. -/
theorem wrapAll_error (body : M α) (wrap : String → String) (s s' : List CallRec)
    (e : PyErr) (h : pyTryWrapAll body wrap s = (.error e, s')) :
    ∃ m, e = .jiraClientError m := by
  unfold pyTryWrapAll at h
  split at h
  · simp at h
  · rw [Prod.mk.injEq] at h
    obtain ⟨h1, h2⟩ := h
    injection h1 with h1
    exact ⟨_, h1.symm⟩

/-- A successful create_project result record carries success = true. -/
theorem create_project_ok_success (t : Transport) (pn pk bt : String)
    (s s' : List CallRec) (d : Json)
    (h : JiraClient.create_project t pn pk bt s = (.ok d, s')) :
    d.lookup "success" = some (.bool true) := by
  unfold JiraClient.create_project pyTryWrapKeepDomain at h
  split at h
  next a s₁ heq =>
    rw [Prod.mk.injEq] at h
    obtain ⟨h1, h2⟩ := h
    injection h1 with h1
    subst h1
    split at heq
    next hval => simp [M.raise] at heq
    next hval =>
      obtain ⟨aid, s1, hacct, heq⟩ := M.bind_ok _ _ _ _ _ heq
      obtain ⟨tmpl, s2, htmpl, heq⟩ := M.bind_ok _ _ _ _ _ heq
      obtain ⟨res, s3, hpost, heq⟩ := M.bind_ok _ _ _ _ _ heq
      obtain ⟨binfo, s4, hboard, heq⟩ := M.bind_ok _ _ _ _ _ heq
      obtain ⟨rk, s5, hrk, heq⟩ := M.bind_ok _ _ _ _ _ heq
      obtain ⟨ri, s6, hri, heq⟩ := M.bind_ok _ _ _ _ _ heq
      obtain ⟨bid, s7, hbid, heq⟩ := M.bind_ok _ _ _ _ _ heq
      rw [M.pure_apply, Prod.mk.injEq] at heq
      obtain ⟨h3, h4⟩ := heq
      injection h3 with h3
      subst h3
      simp [Json.lookup, Json.lookupKey]
  next m s₁ heq => simp at h
  next m s₁ heq => simp at h

/-- A successful create_issue result record carries success = true. -/
theorem create_issue_ok_success (t : Transport) (pko pno : Option String)
    (summ descr it : String) (a p : Option String) (ls : Option (List String))
    (dd : Option String) (s s' : List CallRec) (d : Json)
    (h : JiraClient.create_issue t pko pno summ descr it a p ls dd s = (.ok d, s')) :
    d.lookup "success" = some (.bool true) := by
  unfold JiraClient.create_issue pyTryWrapKeepDomain at h
  split at h
  next a' s₁ heq =>
    rw [Prod.mk.injEq] at h
    obtain ⟨h1, h2⟩ := h
    injection h1 with h1
    subst h1
    split at heq
    next hval => simp [M.raise] at heq
    next hval =>
      obtain ⟨pk, s1, hres, heq⟩ := M.bind_ok _ _ _ _ _ heq
      split at heq
      next hpk => simp [M.raise] at heq
      next hpk =>
        obtain ⟨res, s2, hic, heq⟩ := M.bind_ok _ _ _ _ _ heq
        obtain ⟨ik, s3, hik, heq⟩ := M.bind_ok _ _ _ _ _ heq
        obtain ⟨iv, s4, hiv, heq⟩ := M.bind_ok _ _ _ _ _ heq
        rw [M.pure_apply, Prod.mk.injEq] at heq
        obtain ⟨h3, h4⟩ := heq
        injection h3 with h3
        subst h3
        simp [Json.lookup, Json.lookupKey]
  next m s₁ heq => simp at h
  next m s₁ heq => simp at h

/-- A successful search_issues result record carries success = true. -/
theorem search_issues_ok_success (t : Transport) (q : String) (mr : Int)
    (s s' : List CallRec) (d : Json)
    (h : JiraClient.search_issues t q mr s = (.ok d, s')) :
    d.lookup "success" = some (.bool true) := by
  unfold JiraClient.search_issues pyTryWrapAll at h
  split at h
  next a' s₁ heq =>
    rw [Prod.mk.injEq] at h
    obtain ⟨h1, h2⟩ := h
    injection h1 with h1
    subst h1
    split at heq
    next hval => simp [M.raise] at heq
    next hval =>
      obtain ⟨res, s1, hpost, heq⟩ := M.bind_ok _ _ _ _ _ heq
      obtain ⟨ij, s2, hij, heq⟩ := M.bind_ok _ _ _ _ _ heq
      obtain ⟨il, s3, hil, heq⟩ := M.bind_ok _ _ _ _ _ heq
      obtain ⟨simp0, s4, hsimp, heq⟩ := M.bind_ok _ _ _ _ _ heq
      obtain ⟨tot, s5, htot, heq⟩ := M.bind_ok _ _ _ _ _ heq
      rw [M.pure_apply, Prod.mk.injEq] at heq
      obtain ⟨h3, h4⟩ := heq
      injection h3 with h3
      subst h3
      simp [Json.lookup, Json.lookupKey]
  next m s₁ heq => simp at h

/-- A successful add_comment result record carries success = true. -/
theorem add_comment_ok_success (t : Transport) (iid c : String)
    (s s' : List CallRec) (d : Json)
    (h : JiraClient.add_comment t iid c s = (.ok d, s')) :
    d.lookup "success" = some (.bool true) := by
  unfold JiraClient.add_comment pyTryWrapAll at h
  split at h
  next a' s₁ heq =>
    rw [Prod.mk.injEq] at h
    obtain ⟨h1, h2⟩ := h
    injection h1 with h1
    subst h1
    split at heq
    next hval => simp [M.raise] at heq
    next hval =>
      obtain ⟨res, s1, hpost, heq⟩ := M.bind_ok _ _ _ _ _ heq
      obtain ⟨cid, s2, hcid, heq⟩ := M.bind_ok _ _ _ _ _ heq
      rw [M.pure_apply, Prod.mk.injEq] at heq
      obtain ⟨h3, h4⟩ := heq
      injection h3 with h3
      subst h3
      simp [Json.lookup, Json.lookupKey]
  next m s₁ heq => simp at h

/-- A successful change_status result record carries success = true. -/
theorem change_status_ok_success (t : Transport) (iid ns : String)
    (s s' : List CallRec) (d : Json)
    (h : JiraClient.change_status t iid ns s = (.ok d, s')) :
    d.lookup "success" = some (.bool true) := by
  unfold JiraClient.change_status pyTryWrapKeepDomain at h
  split at h
  next a' s₁ heq =>
    rw [Prod.mk.injEq] at h
    obtain ⟨h1, h2⟩ := h
    injection h1 with h1
    subst h1
    split at heq
    next hval => simp [M.raise] at heq
    next hval =>
      obtain ⟨tr, s1, htr, heq⟩ := M.bind_ok _ _ _ _ _ heq
      obtain ⟨tv, s2, htv, heq⟩ := M.bind_ok _ _ _ _ _ heq
      obtain ⟨tl, s3, htl, heq⟩ := M.bind_ok _ _ _ _ _ heq
      obtain ⟨tgt, s4, htgt, heq⟩ := M.bind_ok _ _ _ _ _ heq
      split at heq
      next hmatch =>
        obtain ⟨av, s5, hav2, heq⟩ := M.bind_ok _ _ _ _ _ heq
        simp [M.raise] at heq
      next hmatch =>
        obtain ⟨tid, s5, htid, heq⟩ := M.bind_ok _ _ _ _ _ heq
        obtain ⟨sr, s6, hsr, heq⟩ := M.bind_ok _ _ _ _ _ heq
        rw [M.pure_apply, Prod.mk.injEq] at heq
        obtain ⟨h3, h4⟩ := heq
        injection h3 with h3
        subst h3
        simp [Json.lookup, Json.lookupKey]
  next m s₁ heq => simp at h
  next m s₁ heq => simp at h

/-- The outcome contract of a façade tool: a value is returned (no
exception), and it is a record with success = true or an error payload. -/
def toolOk (r : Except PyErr Json) : Prop :=
  ∃ d, r = .ok d ∧
    (d.lookup "success" = some (.bool true) ∨ ∃ m, d = .obj [("error", .str m)])

/-- C2: every tool of the façade, on every input and every behavior of the
network, returns either a success record or an error payload — no
exception, domain or otherwise, crosses the tool boundary — and the
change_status tool reports any client failure with its message preserved. -/
theorem facade_tools_never_raise :
    (∀ t pn pk bt, toolOk (runM (server.create_project t pn pk bt)).1)
    ∧ (∀ t summ pk pn descr it a p ls dd,
        toolOk (runM (server.create_issue t summ pk pn descr it a p ls dd)).1)
    ∧ (∀ t q, toolOk (runM (server.search_issues t q)).1)
    ∧ (∀ t iid c, toolOk (runM (server.add_comment t iid c)).1)
    ∧ (∀ t iid ns, toolOk (runM (server.change_status t iid ns)).1)
    ∧ (∀ t iid ns e s',
        JiraClient.change_status t iid ns [] = (.error e, s') →
        (runM (server.change_status t iid ns)).1 = .ok (.obj [("error", .str e.pyMsg)])) := by
  refine ⟨?_, ?_, ?_, ?_, ?_, ?_⟩
  · intro t pn pk bt
    unfold toolOk runM server.create_project pyTryFacade
    cases hr : JiraClient.create_project t pn pk bt [] with
    | mk r slog =>
      cases r with
      | ok a =>
        exact ⟨a, rfl, Or.inl (create_project_ok_success t pn pk bt [] slog a hr)⟩
      | error e =>
        obtain ⟨m, rfl⟩ := wrapKeepDomain_error _ _ _ _ _
          (by unfold JiraClient.create_project at hr; exact hr)
        exact ⟨.obj [("error", .str m)], rfl, Or.inr ⟨m, rfl⟩⟩
  · intro t summ pk pn descr it a p ls dd
    unfold toolOk runM server.create_issue pyTryFacade
    cases hr : JiraClient.create_issue t
        (if pk != "" then some pk else none)
        (if pn != "" then some pn else none)
        summ descr it
        (if a != "" then some a else none)
        (if p != "" then some p else none)
        (if !ls.isEmpty then some ls else none)
        (if dd != "" then some dd else none) [] with
    | mk r slog =>
      cases r with
      | ok av =>
        exact ⟨av, rfl, Or.inl (create_issue_ok_success t _ _ _ _ _ _ _ _ _ [] slog av hr)⟩
      | error e =>
        obtain ⟨m, rfl⟩ := wrapKeepDomain_error _ _ _ _ _
          (by unfold JiraClient.create_issue at hr; exact hr)
        exact ⟨.obj [("error", .str m)], rfl, Or.inr ⟨m, rfl⟩⟩
  · intro t q
    unfold toolOk runM server.search_issues pyTryFacade
    cases hr : JiraClient.search_issues t q 10 [] with
    | mk r slog =>
      cases r with
      | ok a =>
        exact ⟨a, rfl, Or.inl (search_issues_ok_success t q 10 [] slog a hr)⟩
      | error e =>
        obtain ⟨m, rfl⟩ := wrapAll_error _ _ _ _ _
          (by unfold JiraClient.search_issues at hr; exact hr)
        exact ⟨.obj [("error", .str m)], rfl, Or.inr ⟨m, rfl⟩⟩
  · intro t iid c
    unfold toolOk runM server.add_comment pyTryFacade
    cases hr : JiraClient.add_comment t iid c [] with
    | mk r slog =>
      cases r with
      | ok a =>
        exact ⟨a, rfl, Or.inl (add_comment_ok_success t iid c [] slog a hr)⟩
      | error e =>
        obtain ⟨m, rfl⟩ := wrapAll_error _ _ _ _ _
          (by unfold JiraClient.add_comment at hr; exact hr)
        exact ⟨.obj [("error", .str m)], rfl, Or.inr ⟨m, rfl⟩⟩
  · intro t iid ns
    unfold toolOk runM server.change_status pyTryFacadeAll
    cases hr : JiraClient.change_status t iid ns [] with
    | mk r slog =>
      cases r with
      | ok a =>
        exact ⟨a, rfl, Or.inl (change_status_ok_success t iid ns [] slog a hr)⟩
      | error e =>
        exact ⟨.obj [("error", .str e.pyMsg)], rfl, Or.inr ⟨e.pyMsg, rfl⟩⟩
  · intro t iid ns e s' h
    unfold runM server.change_status pyTryFacadeAll
    rw [h]

/-- Witness for C2: the change_status tool converts a concrete client
failure into the error payload, preserving the message. -/
theorem facade_tools_never_raise_witness :
    (runM (server.change_status stubBase "ISSUE-9" "Done")).1
      = .ok (.obj [("error",
          .str (PyErr.jiraClientError
            "Status 'Done' not available. Available transitions: ").pyMsg)]) :=
  facade_tools_never_raise.2.2.2.2.2 stubBase "ISSUE-9" "Done"
    (.jiraClientError "Status 'Done' not available. Available transitions: ")
    [CallRec.transitionsGet "ISSUE-9"] rfl

/-- C3 (code bug at input "AB1"): the key "AB1" does not match the
specification's pattern [A-Z] 2 to 10, yet the isupper-based validation in
create_project accepts it (a digit is not a cased character), so the run
proceeds to the network — the identity request is issued first — instead
of failing before any network request. -/
theorem create_project_key_validation_gap :
    specKeyPattern "AB1" = false
    ∧ pyIsupper "AB1" = true
    ∧ (runM (JiraClient.create_project stubBase "Demo" "AB1" "scrum")).2.head?
        = some CallRec.myself
    ∧ (∃ d, (runM (JiraClient.create_project stubBase "Demo" "AB1" "scrum")).1 = .ok d) :=
  ⟨by decide, rfl, rfl, ⟨_, rfl⟩⟩

/-- C4 counterexample: with an empty description input the outbound
field-set still contains a "description" entry (the empty string), so
"absent input implies absent from the request" fails for description. -/
theorem issue_fields_description_always_present :
    (JiraClient.issueFields "PROJ" "A summary" "" "Task" none none none none).lookup
      "description" = some (.str "") := rfl

/-- C4 amended: assignee, priority, labels and due_date are attached to the
outbound request exactly when their input is non-empty, carrying the input
verbatim, and are absent otherwise; description (with project, summary and
issuetype) is always present, even when empty. -/
theorem issue_fields_optional_membership (pk summ descr it : String)
    (a p : Option String) (ls : Option (List String)) (dd : Option String) :
    (JiraClient.issueFields pk summ descr it a p ls dd).lookup "description"
        = some (.str descr)
    ∧ (JiraClient.issueFields pk summ descr it a p ls dd).lookup "assignee"
        = (if JiraClient.optStrTruthy a then
             some (.obj [("name", .str (a.getD ""))]) else none)
    ∧ (JiraClient.issueFields pk summ descr it a p ls dd).lookup "priority"
        = (if JiraClient.optStrTruthy p then
             some (.obj [("name", .str (p.getD ""))]) else none)
    ∧ (JiraClient.issueFields pk summ descr it a p ls dd).lookup "labels"
        = (if JiraClient.optListTruthy ls then
             some (.arr ((ls.getD []).map .str)) else none)
    ∧ (JiraClient.issueFields pk summ descr it a p ls dd).lookup "duedate"
        = (if JiraClient.optStrTruthy dd then some (.str (dd.getD "")) else none)
    ∧ (JiraClient.issueFields pk summ descr it a p ls dd).lookup "project"
        = some (.obj [("key", .str pk)])
    ∧ (JiraClient.issueFields pk summ descr it a p ls dd).lookup "summary"
        = some (.str summ)
    ∧ (JiraClient.issueFields pk summ descr it a p ls dd).lookup "issuetype"
        = some (.obj [("name", .str it)]) := by
  unfold JiraClient.issueFields Json.lookup
  cases ha : JiraClient.optStrTruthy a <;> cases hp : JiraClient.optStrTruthy p <;>
    cases hl : JiraClient.optListTruthy ls <;> cases hd : JiraClient.optStrTruthy dd <;>
    simp [ha, hp, hl, hd, Json.lookupKey]

/-- Bind of a successful Except value: the defining reduction, for simp. -/
theorem exceptOkBind {ε α β : Type} (a : α) (f : α → Except ε β) :
    (Except.ok a >>= f : Except ε β) = f a := rfl

/-- A raw search-result issue that has no assignee and no priority entry at
all. -/
def bareIssue (k summ st ty : String) : Json :=
  .obj [("key", .str k),
        ("fields", .obj
          [("summary", .str summ),
           ("status", .obj [("name", .str st)]),
           ("issuetype", .obj [("name", .str ty)])])]

/-- A raw search-result issue carrying an assignee with a displayName and a
priority with a name. -/
def fullIssue (k summ st an pn ty : String) : Json :=
  .obj [("key", .str k),
        ("fields", .obj
          [("summary", .str summ),
           ("status", .obj [("name", .str st)]),
           ("assignee", .obj [("displayName", .str an)]),
           ("priority", .obj [("name", .str pn)]),
           ("issuetype", .obj [("name", .str ty)])])]

/-- The search request body search_issues posts for a query and a
max_results bound. -/
def searchPayload (q : String) (mr : Int) : Json :=
  .obj [("jql", .str q),
        ("maxResults", .num mr),
        ("fields", .arr [.str "summary", .str "status", .str "assignee",
                         .str "issuetype", .str "priority", .str "created"])]

/-- C5: an issue with no assignee and no priority entry simplifies without
failing, to "Unassigned" and "None"; an issue carrying both fields has the
displayName and priority name passed through unchanged; and search_issues
on a mixed two-issue result succeeds with exactly those records. -/
theorem search_issues_absent_field_defaults :
    (∀ (u : String) (ies fes stEntries itEntries : List (String × Json)),
      Json.lookupKey ies "fields" = some (.obj fes) →
      Json.lookupKey fes "assignee" = none →
      Json.lookupKey fes "priority" = none →
      Json.lookupKey fes "status" = some (.obj stEntries) →
      Json.lookupKey fes "issuetype" = some (.obj itEntries) →
      JiraClient.simplifyIssue u (.obj ies) = .ok (.obj
        [("key", (Json.lookupKey ies "key").getD .null),
         ("summary", (Json.lookupKey fes "summary").getD .null),
         ("status", (Json.lookupKey stEntries "name").getD .null),
         ("assignee", .str "Unassigned"),
         ("priority", .str "None"),
         ("issue_type", (Json.lookupKey itEntries "name").getD .null),
         ("url", .str (u ++ "/browse/" ++ ((Json.lookupKey ies "key").getD .null).pyStr))]))
    ∧ (∀ (u : String) (ies fes aes pes stEntries itEntries : List (String × Json))
        (av pv : Json),
      Json.lookupKey ies "fields" = some (.obj fes) →
      Json.lookupKey fes "assignee" = some (.obj aes) →
      (Json.obj aes).truthy = true →
      Json.lookupKey aes "displayName" = some av →
      Json.lookupKey fes "priority" = some (.obj pes) →
      Json.lookupKey pes "name" = some pv →
      Json.lookupKey fes "status" = some (.obj stEntries) →
      Json.lookupKey fes "issuetype" = some (.obj itEntries) →
      JiraClient.simplifyIssue u (.obj ies) = .ok (.obj
        [("key", (Json.lookupKey ies "key").getD .null),
         ("summary", (Json.lookupKey fes "summary").getD .null),
         ("status", (Json.lookupKey stEntries "name").getD .null),
         ("assignee", av),
         ("priority", pv),
         ("issue_type", (Json.lookupKey itEntries "name").getD .null),
         ("url", .str (u ++ "/browse/" ++ ((Json.lookupKey ies "key").getD .null).pyStr))]))
    ∧ (∀ (t : Transport) (q k1 s1 st1 ty1 k2 s2 st2 an pn2 ty2 : String),
      q ≠ "" →
      t.postResp "/rest/api/3/search/jql" (searchPayload q 10) = .ok (.obj
        [("issues", .arr [bareIssue k1 s1 st1 ty1, fullIssue k2 s2 st2 an pn2 ty2]),
         ("total", .num 2)]) →
      (runM (JiraClient.search_issues t q 10)).1 = .ok (.obj
        [("success", .bool true),
         ("total", .num 2),
         ("returned", .num 2),
         ("issues", .arr
           [.obj [("key", .str k1), ("summary", .str s1), ("status", .str st1),
                  ("assignee", .str "Unassigned"), ("priority", .str "None"),
                  ("issue_type", .str ty1),
                  ("url", .str (t.url ++ "/browse/" ++ k1))],
            .obj [("key", .str k2), ("summary", .str s2), ("status", .str st2),
                  ("assignee", .str an), ("priority", .str pn2),
                  ("issue_type", .str ty2),
                  ("url", .str (t.url ++ "/browse/" ++ k2))]])])) := by
  refine ⟨?_, ?_, ?_⟩
  · intro u ies fes stEntries itEntries hf ha hp hst hit
    simp [JiraClient.simplifyIssue, Json.get, hf, ha, hp, hst, hit, Json.truthy,
      exceptOkBind, Json.lookupKey]
  · intro u ies fes aes pes stEntries itEntries av pv hf ha htr hadn hp hpn hst hit
    simp [JiraClient.simplifyIssue, Json.get, hf, ha, htr, hadn, hp, hpn, hst, hit,
      exceptOkBind]
  · intro t q k1 s1 st1 ty1 k2 s2 st2 an pn2 ty2 hq hpost
    have hb : JiraClient.simplifyIssue t.url (bareIssue k1 s1 st1 ty1)
        = .ok (.obj [("key", .str k1), ("summary", .str s1), ("status", .str st1),
                     ("assignee", .str "Unassigned"), ("priority", .str "None"),
                     ("issue_type", .str ty1),
                     ("url", .str (t.url ++ "/browse/" ++ k1))]) := rfl
    have hfl : JiraClient.simplifyIssue t.url (fullIssue k2 s2 st2 an pn2 ty2)
        = .ok (.obj [("key", .str k2), ("summary", .str s2), ("status", .str st2),
                     ("assignee", .str an), ("priority", .str pn2),
                     ("issue_type", .str ty2),
                     ("url", .str (t.url ++ "/browse/" ++ k2))]) := rfl
    unfold runM JiraClient.search_issues pyTryWrapAll
    simp only [hq, decide_False, decide_True, String.reduceEq, Bool.false_eq_true,
      if_neg, if_false]
    simp only [M.bind_apply, M.pure_apply, M.netCall, M.ofExcept, M.raise,
      Transport.post]
    rw [show (searchPayload q 10) = .obj [("jql", .str q), ("maxResults", .num 10),
      ("fields", .arr [.str "summary", .str "status", .str "assignee",
        .str "issuetype", .str "priority", .str "created"])] from rfl] at hpost
    simp only [hpost, Json.get, Json.lookupKey, Json.pyIter, String.reduceEq,
      reduceIte, Option.getD, List.mapM, List.mapM.loop, hb, hfl, exceptOkBind,
      List.length, List.reverse, List.reverseAux]
    rfl

/-- A transport whose search endpoint returns one bare and one full issue. -/
def searchStub : Transport :=
  { stubBase with postResp := fun _ _ => .ok (.obj
      [("issues", .arr [bareIssue "T-1" "First" "To Do" "Task",
                        fullIssue "T-2" "Second" "Done" "Ada L" "High" "Bug"]),
       ("total", .num 2)]) }

/-- Witness for C5: the mixed two-issue search on a concrete transport. -/
theorem search_issues_absent_field_defaults_witness :
    (runM (JiraClient.search_issues searchStub "project = T" 10)).1 = .ok (.obj
      [("success", .bool true),
       ("total", .num 2),
       ("returned", .num 2),
       ("issues", .arr
         [.obj [("key", .str "T-1"), ("summary", .str "First"), ("status", .str "To Do"),
                ("assignee", .str "Unassigned"), ("priority", .str "None"),
                ("issue_type", .str "Task"),
                ("url", .str (searchStub.url ++ "/browse/" ++ "T-1"))],
          .obj [("key", .str "T-2"), ("summary", .str "Second"), ("status", .str "Done"),
                ("assignee", .str "Ada L"), ("priority", .str "High"),
                ("issue_type", .str "Bug"),
                ("url", .str (searchStub.url ++ "/browse/" ++ "T-2"))]])]) :=
  search_issues_absent_field_defaults.2.2 searchStub "project = T"
    "T-1" "First" "To Do" "Task" "T-2" "Second" "Done" "Ada L" "High" "Bug"
    (by decide) rfl

/-- Whether a value is a Python list (the isinstance(x, list) test). -/
def Json.isListShape : Json → Bool
  | .arr _ => true
  | _ => false

/-- Whether a value is a Python dict (the isinstance(x, dict) test). -/
def Json.isDictShape : Json → Bool
  | .obj _ => true
  | _ => false

/-- C6: change_status behaves identically — same outcome, same network
calls — whether the transitions response is a bare list or an object
wrapping that list under a "transitions" key; and a response that is
neither list nor dict fails with the protocol error. -/
theorem change_status_response_shapes :
    (∀ (t : Transport) (iid ns : String) (l : List Json),
      runM (JiraClient.change_status
        { t with transitionsResp := fun _ => .ok (.arr l) } iid ns)
      = runM (JiraClient.change_status
        { t with transitionsResp := fun _ => .ok (.obj [("transitions", .arr l)]) } iid ns))
    ∧ (∀ (t : Transport) (iid ns : String) (j : Json),
      iid ≠ "" → ns ≠ "" →
      j.isListShape = false → j.isDictShape = false →
      t.transitionsResp iid = .ok j →
      (runM (JiraClient.change_status t iid ns)).1
        = .error (.jiraClientError "Unexpected response format from get_issue_transitions")) := by
  refine ⟨fun t iid ns l => rfl, ?_⟩
  intro t iid ns j hiid hns hl hd htr
  unfold runM JiraClient.change_status pyTryWrapKeepDomain
  simp only [hiid, hns, decide_False, Bool.or_self, Bool.false_eq_true, if_neg, if_false]
  simp only [M.bind_apply, M.pure_apply, M.netCall, M.ofExcept, M.raise,
    Transport.issueTransitions, htr]
  cases j <;> simp_all [JiraClient.extractTransitions, Json.isListShape, Json.isDictShape]

/-- Witness for C6: a string-shaped transitions response on a concrete
transport yields the protocol error. -/
theorem change_status_response_shapes_witness :
    (runM (JiraClient.change_status
      { stubBase with transitionsResp := fun _ => .ok (.str "oops") } "PROJ-2" "Done")).1
      = .error (.jiraClientError "Unexpected response format from get_issue_transitions") :=
  change_status_response_shapes.2
    { stubBase with transitionsResp := fun _ => .ok (.str "oops") }
    "PROJ-2" "Done" (.str "oops") (by decide) (by decide) rfl rfl rfl

/-- C7 counterexample: with the invalid board_type "retro" and a healthy
identity endpoint, create_project does fail with the message listing both
valid options — but only after the account-identity network request: the
call log is not empty, refuting "before any network call is made". -/
theorem create_project_board_type_after_network :
    (runM (JiraClient.create_project stubBase "Demo" "DEMO" "retro")).1
      = .error (.jiraClientError "Invalid board_type 'retro'. Must be 'scrum' or 'kanban'")
    ∧ (runM (JiraClient.create_project stubBase "Demo" "DEMO" "retro")).2
      = [CallRec.myself] := ⟨rfl, rfl⟩

/-- C7 amended: for every board_type that is not case-insensitively kanban
or scrum, once the identity fetch has succeeded with a truthy accountId,
create_project fails with the error listing both valid options — the
failure is detected after the identity request (exactly one network call),
not before any network call. -/
theorem create_project_invalid_board_type (t : Transport) (pn pk bt : String)
    (mes : List (String × Json)) (aidJ : Json)
    (hkey : pyIsupper pk = true) (hlen1 : 2 ≤ pk.length) (hlen2 : pk.length ≤ 10)
    (hnk : pyLower bt ≠ "kanban") (hns : pyLower bt ≠ "scrum")
    (hm : t.myselfResp = .ok (.obj mes))
    (haid : Json.lookupKey mes "accountId" = some aidJ)
    (htru : aidJ.truthy = true) :
    (runM (JiraClient.create_project t pn pk bt)).1
      = .error (.jiraClientError
          ("Invalid board_type '" ++ bt ++ "'. Must be 'scrum' or 'kanban'"))
    ∧ (runM (JiraClient.create_project t pn pk bt)).2 = [CallRec.myself] := by
  have hacct : JiraClient.get_current_user_account_id t []
      = (.ok aidJ, [CallRec.myself]) := by
    unfold JiraClient.get_current_user_account_id pyTryWrapAll
    simp only [M.bind_apply, M.pure_apply, M.netCall, M.ofExcept, M.raise,
      Transport.myself, hm, Json.get, haid, htru, Option.getD,
      Bool.not_true, Bool.false_eq_true, if_neg, if_false, List.nil_append]
  have htmpl : JiraClient.boardTemplate bt = .error (.jiraClientError
      ("Invalid board_type '" ++ bt ++ "'. Must be 'scrum' or 'kanban'")) := by
    unfold JiraClient.boardTemplate
    simp [hnk, hns]
  constructor <;>
  · unfold runM JiraClient.create_project pyTryWrapKeepDomain
    simp [hkey, hlen1, hlen2, M.bind_apply, M.pure_apply, M.netCall, M.ofExcept,
      M.raise, hacct, htmpl]

/-- Witness for the amended C7 at a concrete transport and board_type. -/
theorem create_project_invalid_board_type_witness :
    (runM (JiraClient.create_project stubBase "Demo" "DEMO" "basic")).1
      = .error (.jiraClientError
          ("Invalid board_type '" ++ "basic" ++ "'. Must be 'scrum' or 'kanban'"))
    ∧ (runM (JiraClient.create_project stubBase "Demo" "DEMO" "basic")).2
      = [CallRec.myself] :=
  create_project_invalid_board_type stubBase "Demo" "DEMO" "basic"
    [("accountId", .str "acct-1")] (.str "acct-1")
    (by decide) (by decide) (by decide) (by decide) (by decide) rfl rfl rfl

/-- C8: create_issue with neither project_key nor project_name fails with
the validation error (no network call); with only project_name it resolves
the key by a case-insensitive name match over the full project list before
constructing the request — the outbound request carries the resolved key —
and fails with the not-found error when no name matches. -/
theorem create_issue_project_resolution :
    (∀ (t : Transport) (summ descr it : String) (a p : Option String)
        (ls : Option (List String)) (dd : Option String),
      summ ≠ "" →
      runM (JiraClient.create_issue t none none summ descr it a p ls dd)
        = (.error (.jiraClientError "Either project_key or project_name must be provided"),
           []))
    ∧ (∀ (t : Transport) (pn summ descr it : String) (a p : Option String)
        (ls : Option (List String)) (dd : Option String)
        (ps : List (String × String)) (pr₀ : String × String)
        (res : List (String × Json)),
      summ ≠ "" → pn ≠ "" →
      t.projectsResp = .ok ps →
      ps.find? (fun pr => pyLower pr.1 == pyLower pn) = some pr₀ →
      pr₀.2 ≠ "" →
      t.issueCreateResp (JiraClient.issueFields pr₀.2 summ descr it a p ls dd)
        = .ok (.obj res) →
      runM (JiraClient.create_issue t none (some pn) summ descr it a p ls dd)
        = (.ok (.obj
            [("success", .bool true),
             ("issue_key", (Json.lookupKey res "key").getD .null),
             ("issue_id", (Json.lookupKey res "id").getD .null),
             ("issue_url", .str (t.url ++ "/browse/"
               ++ ((Json.lookupKey res "key").getD .null).pyStr)),
             ("message", .str ("Successfully created issue "
               ++ ((Json.lookupKey res "key").getD .null).pyStr))]),
           [CallRec.projectsList,
            CallRec.issueCreate (JiraClient.issueFields pr₀.2 summ descr it a p ls dd)]))
    ∧ (∀ (t : Transport) (pn summ descr it : String) (a p : Option String)
        (ls : Option (List String)) (dd : Option String)
        (ps : List (String × String)),
      summ ≠ "" → pn ≠ "" →
      t.projectsResp = .ok ps →
      ps.find? (fun pr => pyLower pr.1 == pyLower pn) = none →
      runM (JiraClient.create_issue t none (some pn) summ descr it a p ls dd)
        = (.error (.jiraClientError ("Project '" ++ pn ++ "' not found")),
           [CallRec.projectsList])) := by
  refine ⟨?_, ?_, ?_⟩
  · intro t summ descr it a p ls dd hsum
    unfold runM JiraClient.create_issue pyTryWrapKeepDomain JiraClient.resolveProjectKey
    simp [hsum, JiraClient.optStrTruthy, M.bind_apply, M.pure_apply, M.raise]
  · intro t pn summ descr it a p ls dd ps pr₀ res hsum hpn hp hfind hk hres
    have hg : JiraClient.get_project_key_by_name t pn []
        = (.ok pr₀.2, [CallRec.projectsList]) := by
      unfold JiraClient.get_project_key_by_name pyTryWrapKeepDomain
      simp [M.bind_apply, M.pure_apply, M.netCall, M.raise, Transport.projects, hp, hfind]
    have hr1 : JiraClient.resolveProjectKey t none (some pn) []
        = (.ok (some pr₀.2), [CallRec.projectsList]) := by
      unfold JiraClient.resolveProjectKey
      simp [JiraClient.optStrTruthy, hpn, M.bind_apply, M.pure_apply, hg]
    unfold runM JiraClient.create_issue pyTryWrapKeepDomain
    simp [hsum, M.bind_apply, M.pure_apply, M.netCall, M.ofExcept, M.raise, hr1,
      JiraClient.optStrTruthy, hk, Transport.issueCreate, hres, Json.get, Option.getD]
  · intro t pn summ descr it a p ls dd ps hsum hpn hp hfind
    have hg : JiraClient.get_project_key_by_name t pn []
        = (.error (.jiraClientError ("Project '" ++ pn ++ "' not found")),
           [CallRec.projectsList]) := by
      unfold JiraClient.get_project_key_by_name pyTryWrapKeepDomain
      simp [M.bind_apply, M.pure_apply, M.netCall, M.raise, Transport.projects, hp, hfind]
    have hr1 : JiraClient.resolveProjectKey t none (some pn) []
        = (.error (.jiraClientError ("Project '" ++ pn ++ "' not found")),
           [CallRec.projectsList]) := by
      unfold JiraClient.resolveProjectKey
      simp [JiraClient.optStrTruthy, hpn, M.bind_apply, M.pure_apply, hg]
    unfold runM JiraClient.create_issue pyTryWrapKeepDomain
    simp [hsum, M.bind_apply, M.pure_apply, M.raise, hr1]

/-- A transport with two named projects and a working issue endpoint. -/
def projectsStub : Transport :=
  { stubBase with
      projectsResp := .ok [("Demo Project", "DEMO"), ("Other", "OTH")],
      issueCreateResp := fun _ => .ok (.obj [("key", .str "DEMO-1"), ("id", .str "1001")]) }

/-- Witness for C8: resolution of a lower-cased project name on a concrete
transport, with the resolved key in the outbound request. -/
theorem create_issue_project_resolution_witness :
    runM (JiraClient.create_issue projectsStub none (some "demo project")
        "A summary" "" "Task" none none none none)
      = (.ok (.obj
          [("success", .bool true),
           ("issue_key", .str "DEMO-1"),
           ("issue_id", .str "1001"),
           ("issue_url", .str (projectsStub.url ++ "/browse/"
             ++ (Json.str "DEMO-1").pyStr)),
           ("message", .str ("Successfully created issue "
             ++ (Json.str "DEMO-1").pyStr))]),
         [CallRec.projectsList,
          CallRec.issueCreate
            (JiraClient.issueFields "DEMO" "A summary" "" "Task" none none none none)]) :=
  create_issue_project_resolution.2.1 projectsStub "demo project" "A summary" "" "Task"
    none none none none [("Demo Project", "DEMO"), ("Other", "OTH")]
    ("Demo Project", "DEMO") [("key", .str "DEMO-1"), ("id", .str "1001")]
    (by decide) (by decide) rfl rfl (by decide) rfl

/-- C9: the board lookup never raises — it degrades to an empty record —
and after a successful creation request a failed board lookup (part 2) or
an empty board list (part 3) still yields the success record, with a null
board_id and the board_url falling back to the "None" placeholder. -/
theorem create_project_board_lookup_best_effort :
    (∀ (t : Transport) (pk : String) (s : List CallRec),
      ∃ d s', JiraClient.get_board_for_project t pk s = (.ok d, s'))
    ∧ (∀ (t : Transport) (pn pk bt em : String)
        (mes pres : List (String × Json)) (aidJ : Json),
      pyIsupper pk = true → 2 ≤ pk.length → pk.length ≤ 10 →
      pyLower bt = "scrum" →
      t.myselfResp = .ok (.obj mes) →
      Json.lookupKey mes "accountId" = some aidJ → aidJ.truthy = true →
      t.postResp "/rest/api/3/project" (.obj
        [("key", .str pk), ("name", .str pn),
         ("projectTypeKey", .str "software"),
         ("projectTemplateKey", .str "com.pyxis.greenhopper.jira:gh-scrum-template"),
         ("leadAccountId", aidJ),
         ("assigneeType", .str "UNASSIGNED")]) = .ok (.obj pres) →
      t.getResp ("/rest/agile/1.0/board?projectKeyOrId=" ++ pk)
        = .error (.otherError em) →
      (runM (JiraClient.create_project t pn pk bt)).1 = .ok (.obj
        [("success", .bool true),
         ("project_key", (Json.lookupKey pres "key").getD .null),
         ("project_id", (Json.lookupKey pres "id").getD .null),
         ("project_url", .str (t.url ++ "/browse/"
           ++ ((Json.lookupKey pres "key").getD .null).pyStr)),
         ("board_id", .null),
         ("board_url", .str (t.url ++ "/jira/software/c/projects/" ++ pk
           ++ "/boards/" ++ "None")),
         ("board_type", .str bt),
         ("message", .str ("Successfully created " ++ bt ++ " board '" ++ pn
           ++ "' with project key " ++ pk))]))
    ∧ (∀ (t : Transport) (pn pk bt : String)
        (mes pres : List (String × Json)) (aidJ : Json),
      pyIsupper pk = true → 2 ≤ pk.length → pk.length ≤ 10 →
      pyLower bt = "scrum" →
      t.myselfResp = .ok (.obj mes) →
      Json.lookupKey mes "accountId" = some aidJ → aidJ.truthy = true →
      t.postResp "/rest/api/3/project" (.obj
        [("key", .str pk), ("name", .str pn),
         ("projectTypeKey", .str "software"),
         ("projectTemplateKey", .str "com.pyxis.greenhopper.jira:gh-scrum-template"),
         ("leadAccountId", aidJ),
         ("assigneeType", .str "UNASSIGNED")]) = .ok (.obj pres) →
      t.getResp ("/rest/agile/1.0/board?projectKeyOrId=" ++ pk)
        = .ok (.obj [("values", .arr [])]) →
      (runM (JiraClient.create_project t pn pk bt)).1 = .ok (.obj
        [("success", .bool true),
         ("project_key", (Json.lookupKey pres "key").getD .null),
         ("project_id", (Json.lookupKey pres "id").getD .null),
         ("project_url", .str (t.url ++ "/browse/"
           ++ ((Json.lookupKey pres "key").getD .null).pyStr)),
         ("board_id", .null),
         ("board_url", .str (t.url ++ "/jira/software/c/projects/" ++ pk
           ++ "/boards/" ++ "None")),
         ("board_type", .str bt),
         ("message", .str ("Successfully created " ++ bt ++ " board '" ++ pn
           ++ "' with project key " ++ pk))])) := by
  refine ⟨?_, ?_, ?_⟩
  · intro t pk s
    unfold JiraClient.get_board_for_project pyTryDefault
    split
    next a s' heq => exact ⟨a, s', rfl⟩
    next e s' heq => exact ⟨.obj [], s', rfl⟩
  · intro t pn pk bt em mes pres aidJ hkey hlen1 hlen2 hbt hm haid htru hpost hget
    have hacct : ∀ s, JiraClient.get_current_user_account_id t s
        = (.ok aidJ, s ++ [CallRec.myself]) := by
      intro s
      unfold JiraClient.get_current_user_account_id pyTryWrapAll
      simp [M.bind_apply, M.pure_apply, M.netCall, M.ofExcept, M.raise,
        Transport.myself, hm, Json.get, haid, htru]
    have hb : ∀ s, JiraClient.get_board_for_project t pk s
        = (.ok (.obj []), s ++ [CallRec.getRequest
            ("/rest/agile/1.0/board?projectKeyOrId=" ++ pk)]) := by
      intro s
      unfold JiraClient.get_board_for_project pyTryDefault
      simp [M.bind_apply, M.pure_apply, M.netCall, M.ofExcept,
        Transport.getRequest, hget]
    have htmpl : JiraClient.boardTemplate bt
        = .ok "com.pyxis.greenhopper.jira:gh-scrum-template" := by
      unfold JiraClient.boardTemplate
      by_cases hk : pyLower bt = "kanban"
      · rw [hk] at hbt; simp at hbt
      · simp [hk, hbt]
    unfold runM JiraClient.create_project pyTryWrapKeepDomain
    simp [hkey, hlen1, hlen2, M.bind_apply, M.pure_apply, M.netCall, M.ofExcept,
      M.raise, hacct, htmpl, Transport.post, hpost, hb, Json.get, Json.pyStr,
      Json.pyRepr, Json.lookupKey]
  · intro t pn pk bt mes pres aidJ hkey hlen1 hlen2 hbt hm haid htru hpost hget
    have hacct : ∀ s, JiraClient.get_current_user_account_id t s
        = (.ok aidJ, s ++ [CallRec.myself]) := by
      intro s
      unfold JiraClient.get_current_user_account_id pyTryWrapAll
      simp [M.bind_apply, M.pure_apply, M.netCall, M.ofExcept, M.raise,
        Transport.myself, hm, Json.get, haid, htru]
    have hb : ∀ s, JiraClient.get_board_for_project t pk s
        = (.ok (.obj []), s ++ [CallRec.getRequest
            ("/rest/agile/1.0/board?projectKeyOrId=" ++ pk)]) := by
      intro s
      unfold JiraClient.get_board_for_project pyTryDefault
      simp [M.bind_apply, M.pure_apply, M.netCall, M.ofExcept,
        Transport.getRequest, hget, Json.get, Json.truthy, Json.lookupKey]
    have htmpl : JiraClient.boardTemplate bt
        = .ok "com.pyxis.greenhopper.jira:gh-scrum-template" := by
      unfold JiraClient.boardTemplate
      by_cases hk : pyLower bt = "kanban"
      · rw [hk] at hbt; simp at hbt
      · simp [hk, hbt]
    unfold runM JiraClient.create_project pyTryWrapKeepDomain
    simp [hkey, hlen1, hlen2, M.bind_apply, M.pure_apply, M.netCall, M.ofExcept,
      M.raise, hacct, htmpl, Transport.post, hpost, hb, Json.get, Json.pyStr,
      Json.pyRepr, Json.lookupKey]

/-- A transport whose project creation succeeds but whose board lookup
endpoint raises. -/
def boardFailStub : Transport :=
  { stubBase with
      postResp := fun _ _ => .ok (.obj [("key", .str "DEMO"), ("id", .str "10000")]),
      getResp := fun _ => .error (.otherError "connection reset") }

/-- Witness for C9: a concrete run whose board lookup raises still returns
the success record with empty board fields. -/
theorem create_project_board_lookup_best_effort_witness :
    (runM (JiraClient.create_project boardFailStub "Demo" "DEMO" "scrum")).1 = .ok (.obj
      [("success", .bool true),
       ("project_key", (Json.lookupKey [("key", Json.str "DEMO"), ("id", Json.str "10000")]
          "key").getD .null),
       ("project_id", (Json.lookupKey [("key", Json.str "DEMO"), ("id", Json.str "10000")]
          "id").getD .null),
       ("project_url", .str (boardFailStub.url ++ "/browse/"
         ++ ((Json.lookupKey [("key", Json.str "DEMO"), ("id", Json.str "10000")]
              "key").getD .null).pyStr)),
       ("board_id", .null),
       ("board_url", .str (boardFailStub.url ++ "/jira/software/c/projects/" ++ "DEMO"
         ++ "/boards/" ++ "None")),
       ("board_type", .str "scrum"),
       ("message", .str ("Successfully created " ++ "scrum" ++ " board '" ++ "Demo"
         ++ "' with project key " ++ "DEMO"))]) :=
  create_project_board_lookup_best_effort.2.1 boardFailStub "Demo" "DEMO" "scrum"
    "connection reset" [("accountId", .str "acct-1")]
    [("key", .str "DEMO"), ("id", .str "10000")] (.str "acct-1")
    (by decide) (by decide) (by decide) (by decide) rfl rfl rfl rfl rfl

/-- C10: when the transitions response is a dict with no "transitions" key,
change_status treats it as an empty transition set — for any non-empty
requested status it fails with the not-found error listing an empty set of
available transitions, not with the protocol error. -/
theorem change_status_dict_without_transitions_key (t : Transport) (iid ns : String)
    (entries : List (String × Json))
    (hiid : iid ≠ "") (hns : ns ≠ "")
    (hkey : Json.lookupKey entries "transitions" = none)
    (htr : t.transitionsResp iid = .ok (.obj entries)) :
    (runM (JiraClient.change_status t iid ns)).1
      = .error (.jiraClientError
          ("Status '" ++ ns ++ "' not available. Available transitions: ")) := by
  unfold runM JiraClient.change_status pyTryWrapKeepDomain
  simp only [hiid, hns, decide_False, Bool.or_self, Bool.false_eq_true, if_neg, if_false]
  simp [M.bind_apply, M.pure_apply, M.netCall, M.ofExcept, M.raise,
    Transport.issueTransitions, htr, JiraClient.extractTransitions, hkey,
    Json.pyIter, JiraClient.findTransition, JiraClient.availableNames,
    Json.truthy, String.intercalate]

/-- Witness for C10: a concrete dict-shaped response without the key. -/
theorem change_status_dict_without_transitions_key_witness :
    (runM (JiraClient.change_status
      { stubBase with transitionsResp := fun _ => .ok (.obj [("expand", .str "x")]) }
      "PROJ-3" "Done")).1
      = .error (.jiraClientError
          ("Status '" ++ "Done" ++ "' not available. Available transitions: ")) :=
  change_status_dict_without_transitions_key
    { stubBase with transitionsResp := fun _ => .ok (.obj [("expand", .str "x")]) }
    "PROJ-3" "Done" [("expand", .str "x")] (by decide) (by decide) rfl rfl
